import Mathlib

/-!
Shallow embedding of src/azul/src/gl.rs: OpenGL resource wrappers
(Texture, FrameBuffer, GlShader) over an abstract GL driver.

The driver (the external gl crate plus the GPU) is modelled as an oracle
record Gl: each query the code makes (generated handles, compile/link
status codes, info logs, framebuffer status) is a field of the oracle.
Every wrapper operation is embedded as a pure function returning its
result together with the list of driver calls it issues, so that
resource-balance properties (every create matched by a delete, and so
on) are statements about the emitted trace.

Machine integers are modelled as Nat (GLuint, usize) and Int (GLint).

Note on fidelity: the source file contains several name-resolution and
type slips that make it non-compiling Rust (a nonexistent field
initializer, an out-of-scope local, an Option constructor where the
declared type is Result). Where such a slip occurs, the embedding uses
the unique sensible resolution and the slip is recorded in a comment at
the definition.
-/

namespace Azul

/- GL enumeration constants, values as in the gl crate. -/

namespace gl

def TEXTURE_2D : Nat := 0x0DE1

def RGBA : Nat := 0x1908

def UNSIGNED_BYTE : Nat := 0x1401

def TEXTURE_MAG_FILTER : Nat := 0x2800

def TEXTURE_MIN_FILTER : Nat := 0x2801

def TEXTURE_WRAP_S : Nat := 0x2802

def TEXTURE_WRAP_T : Nat := 0x2803

def NEAREST : Nat := 0x2600

def CLAMP_TO_EDGE : Nat := 0x812F

def FRAMEBUFFER : Nat := 0x8D40

def COLOR_ATTACHMENT0 : Nat := 0x8CE0

def FRAMEBUFFER_COMPLETE : Nat := 0x8CD5

def VERTEX_SHADER : Nat := 0x8B31

def FRAGMENT_SHADER : Nat := 0x8B30

def COMPILE_STATUS : Nat := 0x8B81

def LINK_STATUS : Nat := 0x8B82

end gl

/-- One call into the GL driver. Calls that return a value to the caller
carry that returned value as their last argument, so a trace is
self-contained. -/
inductive GlCall where
  | genTextures (n : Nat) (ids : List Nat)
  | bindTexture (target id : Nat)
  | texImage2d (target : Nat) (level internal_format : Int) (width height : Nat)
      (border : Int) (format ty : Nat) (data : Option (List Nat))
  | texParameterI (target pname : Nat) (value : Int)
  | deleteTextures (ids : List Nat)
  | genFramebuffers (n : Nat) (ids : List Nat)
  | bindFramebuffer (target id : Nat)
  | framebufferTexture2d (target attachment textarget texture : Nat) (level : Int)
  | drawBuffers (bufs : List Nat)
  | checkFrameBufferStatus (target status : Nat)
  | viewport (x y : Int) (width height : Nat)
  | deleteFramebuffers (ids : List Nat)
  | createShader (kind id : Nat)
  | shaderSource (id : Nat) (sources : List String)
  | compileShader (id : Nat)
  | getShaderIv (id pname : Nat) (result : Int)
  | getShaderInfoLog (id : Nat) (log : String)
  | deleteShader (id : Nat)
  | createProgram (id : Nat)
  | attachShader (program shader : Nat)
  | linkProgram (program : Nat)
  | getProgramIv (program pname : Nat) (result : Int)
  | getProgramInfoLog (program : Nat) (log : String)
  | deleteProgram (program : Nat)
  deriving DecidableEq

/-- The GL driver oracle (the external Gl trait object the code holds an
Rc to). Fields give the values the driver would return for each query
the code under verification can make. -/
structure Gl where
  gen_texture_id : Nat
  gen_framebuffer_id : Nat
  create_shader_id : Nat → Nat
  create_program_id : Nat
  shader_compile_status : Nat → Int
  program_link_status : Nat → Int
  shader_info_log : Nat → String
  program_info_log : Nat → String
  framebuffer_status : Nat

/-- struct Texture, gl.rs lines 10-18. The Rc around the context is
dropped in the embedding. -/
structure Texture where
  texture_id : Nat
  width : Nat
  height : Nat
  gl_context : Gl

/-- Texture::new, gl.rs lines 23-41. gen_textures, bind, tex_image_2d
with RGBA / UNSIGNED_BYTE and no data, then the four fixed sampling
parameters. Slip in the source: the struct literal writes
`dimensions: (width, height)` although Texture declares fields width and
height and no field dimensions (non-compiling); the embedding uses the
intended width/height initialization. -/
def Texture.new (gl_context : Gl) (width height : Nat) : Texture × List GlCall :=
  let texture_id := gl_context.gen_texture_id
  ({ texture_id := texture_id, width := width, height := height, gl_context := gl_context },
   [GlCall.genTextures 1 [texture_id],
    GlCall.bindTexture gl.TEXTURE_2D texture_id,
    GlCall.texImage2d gl.TEXTURE_2D 0 (gl.RGBA : Nat) width height 0 gl.RGBA gl.UNSIGNED_BYTE none,
    GlCall.texParameterI gl.TEXTURE_2D gl.TEXTURE_MAG_FILTER (gl.NEAREST : Nat),
    GlCall.texParameterI gl.TEXTURE_2D gl.TEXTURE_MIN_FILTER (gl.NEAREST : Nat),
    GlCall.texParameterI gl.TEXTURE_2D gl.TEXTURE_WRAP_S (gl.CLAMP_TO_EDGE : Nat),
    GlCall.texParameterI gl.TEXTURE_2D gl.TEXTURE_WRAP_T (gl.CLAMP_TO_EDGE : Nat)])

/-- impl PartialEq for Texture, gl.rs lines 65-71. Slip in the source:
the body reads `other.inner.texture_id` although Texture has no field
inner (non-compiling); the embedding uses the intended
`other.texture_id`. -/
def Texture.eq (self other : Texture) : Bool :=
  self.texture_id == other.texture_id

/-- impl Hash for Texture, gl.rs lines 59-63: only texture_id is fed to
the hasher. The hasher state transition is abstracted as a function on
the fed value. -/
def Texture.hashWith (hasher : Nat → Nat) (self : Texture) : Nat :=
  hasher self.texture_id

/-- impl Drop for Texture, gl.rs lines 75-79. -/
def Texture.drop (self : Texture) : List GlCall :=
  [GlCall.deleteTextures [self.texture_id]]

/-- struct FrameBuffer, gl.rs lines 82-86 (the borrowed texture is held
by value in the embedding). -/
structure FrameBuffer where
  id : Nat
  texture : Texture

/-- FrameBuffer::new, gl.rs lines 90-97: gen_framebuffers(1) and nothing
else; the new framebuffer is never bound here. Slip in the source: the
body names a variable `gl_context` that is not in scope (non-compiling);
the context reachable here is texture.gl_context, which the embedding
uses. -/
def FrameBuffer.new (texture : Texture) : FrameBuffer × List GlCall :=
  let fbid := texture.gl_context.gen_framebuffer_id
  ({ id := fbid, texture := texture }, [GlCall.genFramebuffers 1 [fbid]])

/-- Texture::get_framebuffer, gl.rs lines 44-56: FrameBuffer::new, then
framebuffer_texture_2d and draw_buffers on the context; no
bind_framebuffer call anywhere. The debug_assert on
check_frame_buffer_status is modelled by the dbg flag: in a dbg build
the status query call is emitted and a failing assertion (panic) is
modelled as a none result. The debug_assert also names an out-of-scope
`gl_context` in the source; the embedding uses self.gl_context. -/
def Texture.get_framebuffer (dbg : Bool) (self : Texture) : Option FrameBuffer × List GlCall :=
  let fb := FrameBuffer.new self
  let trace := fb.2 ++
    [GlCall.framebufferTexture2d gl.FRAMEBUFFER gl.COLOR_ATTACHMENT0 gl.TEXTURE_2D self.texture_id 0,
     GlCall.drawBuffers [gl.COLOR_ATTACHMENT0]]
  if dbg then
    let status := self.gl_context.framebuffer_status
    (if status = gl.FRAMEBUFFER_COMPLETE then some fb.1 else none,
     trace ++ [GlCall.checkFrameBufferStatus gl.FRAMEBUFFER status])
  else
    (some fb.1, trace)

/-- FrameBuffer::bind, gl.rs lines 99-103. Slip in the source: the
second call binds `framebuffers[0]`, a local of FrameBuffer::new that is
not in scope in bind (non-compiling); the intended handle is self.id,
which the embedding uses. -/
def FrameBuffer.bind (self : FrameBuffer) : List GlCall :=
  [GlCall.bindTexture gl.TEXTURE_2D self.texture.texture_id,
   GlCall.bindFramebuffer gl.FRAMEBUFFER self.id,
   GlCall.viewport 0 0 self.texture.width self.texture.height]

/-- FrameBuffer::unbind, gl.rs lines 109-112. -/
def FrameBuffer.unbind (_self : FrameBuffer) : List GlCall :=
  [GlCall.bindTexture gl.TEXTURE_2D 0,
   GlCall.bindFramebuffer gl.FRAMEBUFFER 0]

/-- impl Drop for FrameBuffer, gl.rs lines 115-119: delete_framebuffers
on the framebuffer's own id only. Dropping the borrowed texture
reference is a no-op. -/
def FrameBuffer.drop (self : FrameBuffer) : List GlCall :=
  [GlCall.deleteFramebuffers [self.id]]

/-- struct VertexShaderCompileError, gl.rs lines 134-137. error_id is
declared usize but receives a GLint status; modelled as Int. -/
structure VertexShaderCompileError where
  error_id : Int
  info_log : String
  deriving DecidableEq

/-- struct FragmentShaderCompileError, gl.rs lines 140-143. -/
structure FragmentShaderCompileError where
  error_id : Int
  info_log : String
  deriving DecidableEq

/-- enum GlShaderCompileError, gl.rs lines 146-149. -/
inductive GlShaderCompileError where
  | Vertex (e : VertexShaderCompileError)
  | Fragment (e : FragmentShaderCompileError)
  deriving DecidableEq

/-- struct GlShaderLinkError, gl.rs lines 152-155. -/
structure GlShaderLinkError where
  error_id : Int
  info_log : String
  deriving DecidableEq

/-- enum GlShaderCreateError, gl.rs lines 158-161. -/
inductive GlShaderCreateError where
  | Compile (e : GlShaderCompileError)
  | Link (e : GlShaderLinkError)
  deriving DecidableEq

/-- struct GlShader, gl.rs lines 122-125. -/
structure GlShader where
  shader_program : Nat
  gl_context : Gl

/-- impl Drop for GlShader, gl.rs lines 127-131 (the source writes
self.context for the field named gl_context). -/
def GlShader.drop (self : GlShader) : List GlCall :=
  [GlCall.deleteProgram self.shader_program]

/-- get_gl_shader_error, gl.rs lines 226-232: single-element
get_shader_iv COMPILE_STATUS query; returns none when the code is 0 and
some code otherwise. (The source returns the GLint as Option of usize,
a type slip; modelled as Int.) -/
def get_gl_shader_error (context : Gl) (shader_object : Nat) : Option Int × List GlCall :=
  let err_code := context.shader_compile_status shader_object
  (if err_code = 0 then none else some err_code,
   [GlCall.getShaderIv shader_object gl.COMPILE_STATUS err_code])

/-- get_gl_program_error, gl.rs lines 234-240: single-element
get_program_iv LINK_STATUS query; returns none when the code is 0 and
some code otherwise. -/
def get_gl_program_error (context : Gl) (shader_object : Nat) : Option Int × List GlCall :=
  let err_code := context.program_link_status shader_object
  (if err_code = 0 then none else some err_code,
   [GlCall.getProgramIv shader_object gl.LINK_STATUS err_code])

/-- GlShader::new, gl.rs lines 168-223. The dbg flag models
cfg(debug_assertions): the three status checks and their early-return
cleanup blocks exist only when dbg is true; when dbg is true the status
query call is emitted whether or not it reports an error. Slip in the
source: the success path returns `Some(GlShader \x7b ... \x7d)`, the Option
constructor, although the declared return type is
Result of Self and GlShaderCreateError (non-compiling); the embedding
returns the ok constructor of the declared type. -/
def GlShader.new (dbg : Bool) (context : Gl) (vertex_shader_source fragment_shader_source : String) :
    Except GlShaderCreateError GlShader × List GlCall :=
  let vso := context.create_shader_id gl.VERTEX_SHADER
  let vchk := get_gl_shader_error context vso
  let t1 : List GlCall :=
    [GlCall.createShader gl.VERTEX_SHADER vso,
     GlCall.shaderSource vso [vertex_shader_source],
     GlCall.compileShader vso] ++ (if dbg then vchk.2 else [])
  match (if dbg then vchk.1 else none) with
  | some error_id =>
      let info_log := context.shader_info_log vso
      (Except.error (GlShaderCreateError.Compile (GlShaderCompileError.Vertex
         { error_id := error_id, info_log := info_log })),
       t1 ++ [GlCall.getShaderInfoLog vso info_log, GlCall.deleteShader vso])
  | none =>
    let fso := context.create_shader_id gl.FRAGMENT_SHADER
    let fchk := get_gl_shader_error context fso
    let t2 : List GlCall := t1 ++
      [GlCall.createShader gl.FRAGMENT_SHADER fso,
       GlCall.shaderSource fso [fragment_shader_source],
       GlCall.compileShader fso] ++ (if dbg then fchk.2 else [])
    match (if dbg then fchk.1 else none) with
    | some error_id =>
        let info_log := context.shader_info_log fso
        (Except.error (GlShaderCreateError.Compile (GlShaderCompileError.Fragment
           { error_id := error_id, info_log := info_log })),
         t2 ++ [GlCall.getShaderInfoLog fso info_log,
                GlCall.deleteShader vso, GlCall.deleteShader fso])
    | none =>
      let program := context.create_program_id
      let pchk := get_gl_program_error context program
      let t3 : List GlCall := t2 ++
        [GlCall.createProgram program,
         GlCall.attachShader program vso,
         GlCall.attachShader program fso,
         GlCall.linkProgram program] ++ (if dbg then pchk.2 else [])
      match (if dbg then pchk.1 else none) with
      | some error_id =>
          let info_log := context.program_info_log program
          (Except.error (GlShaderCreateError.Link
             { error_id := error_id, info_log := info_log }),
           t3 ++ [GlCall.getProgramInfoLog program info_log,
                  GlCall.deleteShader vso, GlCall.deleteShader fso,
                  GlCall.deleteProgram program])
      | none =>
          (Except.ok { shader_program := program, gl_context := context },
           t3 ++ [GlCall.deleteShader vso, GlCall.deleteShader fso])

/- Trace observers used by the resource-balance statements. -/

/-- Ids of all create_shader calls in a trace, in order. -/
def shaderCreates (t : List GlCall) : List Nat :=
  t.filterMap fun c => match c with
    | GlCall.createShader _ i => some i
    | _ => none

/-- Ids of all create_shader calls of a given kind in a trace. -/
def shaderCreatesOfKind (t : List GlCall) (kind : Nat) : List Nat :=
  t.filterMap fun c => match c with
    | GlCall.createShader k i => if k == kind then some i else none
    | _ => none

/-- Ids of all delete_shader calls in a trace, in order. -/
def shaderDeletes (t : List GlCall) : List Nat :=
  t.filterMap fun c => match c with
    | GlCall.deleteShader i => some i
    | _ => none

/-- Ids of all create_program calls in a trace, in order. -/
def programCreates (t : List GlCall) : List Nat :=
  t.filterMap fun c => match c with
    | GlCall.createProgram i => some i
    | _ => none

/-- Ids of all delete_program calls in a trace, in order. -/
def programDeletes (t : List GlCall) : List Nat :=
  t.filterMap fun c => match c with
    | GlCall.deleteProgram i => some i
    | _ => none

/-- All get_shader_iv / get_program_iv status-query calls in a trace. -/
def statusQueries (t : List GlCall) : List GlCall :=
  t.filter fun c => match c with
    | GlCall.getShaderIv _ _ _ => true
    | GlCall.getProgramIv _ _ _ => true
    | _ => false

/-- Whether a call is a bind_framebuffer call. -/
def isBindFramebuffer : GlCall → Bool
  | GlCall.bindFramebuffer _ _ => true
  | _ => false

/-- Whether a call touches texture state: deleting, generating, binding
a texture or changing its storage or parameters. -/
def affectsTexture : GlCall → Bool
  | GlCall.deleteTextures _ => true
  | GlCall.genTextures _ _ => true
  | GlCall.bindTexture _ _ => true
  | GlCall.texImage2d _ _ _ _ _ _ _ _ _ => true
  | GlCall.texParameterI _ _ _ => true
  | _ => false

/-- Bool success test for the embedded Result. -/
def exceptIsOk : Except GlShaderCreateError GlShader → Bool
  | Except.ok _ => true
  | Except.error _ => false

/- Concrete driver oracles used by counterexamples and witnesses. -/

/-- A driver whose every status query answers 1 (every check trips). -/
def glAllOne : Gl where
  gen_texture_id := 1
  gen_framebuffer_id := 1
  create_shader_id := fun _ => 1
  create_program_id := 1
  shader_compile_status := fun _ => 1
  program_link_status := fun _ => 1
  shader_info_log := fun _ => "shader log"
  program_info_log := fun _ => "program log"
  framebuffer_status := 0

/-- A driver whose every status query answers 0 (every check passes),
handing out shader objects 4 (vertex) and 5 (fragment) and program 7. -/
def glSuccess : Gl where
  gen_texture_id := 10
  gen_framebuffer_id := 20
  create_shader_id := fun k => if k == gl.VERTEX_SHADER then 4 else 5
  create_program_id := 7
  shader_compile_status := fun _ => 0
  program_link_status := fun _ => 0
  shader_info_log := fun _ => ""
  program_info_log := fun _ => ""
  framebuffer_status := gl.FRAMEBUFFER_COMPLETE

/-- A concrete driver context, distinct from glCtxB. -/
def glCtxA : Gl where
  gen_texture_id := 2
  gen_framebuffer_id := 3
  create_shader_id := fun _ => 4
  create_program_id := 5
  shader_compile_status := fun _ => 0
  program_link_status := fun _ => 0
  shader_info_log := fun _ => "a"
  program_info_log := fun _ => "a"
  framebuffer_status := gl.FRAMEBUFFER_COMPLETE

/-- A concrete driver context, distinct from glCtxA. -/
def glCtxB : Gl where
  gen_texture_id := 6
  gen_framebuffer_id := 7
  create_shader_id := fun _ => 8
  create_program_id := 9
  shader_compile_status := fun _ => 1
  program_link_status := fun _ => 1
  shader_info_log := fun _ => "b"
  program_info_log := fun _ => "b"
  framebuffer_status := 0

/- Closed-form branch equations for GlShader.new, shared by the claim
theorems below. -/

/-- Release build (no debug assertions): no status query is made and the
success value is produced unconditionally. -/
theorem glShader_new_release_eq (ctx : Gl) (v f : String) :
    GlShader.new false ctx v f =
      (Except.ok { shader_program := ctx.create_program_id, gl_context := ctx },
       [GlCall.createShader gl.VERTEX_SHADER (ctx.create_shader_id gl.VERTEX_SHADER),
        GlCall.shaderSource (ctx.create_shader_id gl.VERTEX_SHADER) [v],
        GlCall.compileShader (ctx.create_shader_id gl.VERTEX_SHADER),
        GlCall.createShader gl.FRAGMENT_SHADER (ctx.create_shader_id gl.FRAGMENT_SHADER),
        GlCall.shaderSource (ctx.create_shader_id gl.FRAGMENT_SHADER) [f],
        GlCall.compileShader (ctx.create_shader_id gl.FRAGMENT_SHADER),
        GlCall.createProgram ctx.create_program_id,
        GlCall.attachShader ctx.create_program_id (ctx.create_shader_id gl.VERTEX_SHADER),
        GlCall.attachShader ctx.create_program_id (ctx.create_shader_id gl.FRAGMENT_SHADER),
        GlCall.linkProgram ctx.create_program_id,
        GlCall.deleteShader (ctx.create_shader_id gl.VERTEX_SHADER),
        GlCall.deleteShader (ctx.create_shader_id gl.FRAGMENT_SHADER)]) := rfl

/-- Debug build, vertex compile check trips: early error return after
deleting only the vertex shader object. -/
theorem glShader_new_debug_vertex_fail_eq (ctx : Gl) (v f : String)
    (hv : ctx.shader_compile_status (ctx.create_shader_id gl.VERTEX_SHADER) ≠ 0) :
    GlShader.new true ctx v f =
      (Except.error (GlShaderCreateError.Compile (GlShaderCompileError.Vertex
         { error_id := ctx.shader_compile_status (ctx.create_shader_id gl.VERTEX_SHADER),
           info_log := ctx.shader_info_log (ctx.create_shader_id gl.VERTEX_SHADER) })),
       [GlCall.createShader gl.VERTEX_SHADER (ctx.create_shader_id gl.VERTEX_SHADER),
        GlCall.shaderSource (ctx.create_shader_id gl.VERTEX_SHADER) [v],
        GlCall.compileShader (ctx.create_shader_id gl.VERTEX_SHADER),
        GlCall.getShaderIv (ctx.create_shader_id gl.VERTEX_SHADER) gl.COMPILE_STATUS
          (ctx.shader_compile_status (ctx.create_shader_id gl.VERTEX_SHADER)),
        GlCall.getShaderInfoLog (ctx.create_shader_id gl.VERTEX_SHADER)
          (ctx.shader_info_log (ctx.create_shader_id gl.VERTEX_SHADER)),
        GlCall.deleteShader (ctx.create_shader_id gl.VERTEX_SHADER)]) := by
  simp [GlShader.new, get_gl_shader_error, hv]

/-- Debug build, vertex check passes and fragment compile check trips:
error return after deleting both shader objects. -/
theorem glShader_new_debug_fragment_fail_eq (ctx : Gl) (v f : String)
    (hv : ctx.shader_compile_status (ctx.create_shader_id gl.VERTEX_SHADER) = 0)
    (hf : ctx.shader_compile_status (ctx.create_shader_id gl.FRAGMENT_SHADER) ≠ 0) :
    GlShader.new true ctx v f =
      (Except.error (GlShaderCreateError.Compile (GlShaderCompileError.Fragment
         { error_id := ctx.shader_compile_status (ctx.create_shader_id gl.FRAGMENT_SHADER),
           info_log := ctx.shader_info_log (ctx.create_shader_id gl.FRAGMENT_SHADER) })),
       [GlCall.createShader gl.VERTEX_SHADER (ctx.create_shader_id gl.VERTEX_SHADER),
        GlCall.shaderSource (ctx.create_shader_id gl.VERTEX_SHADER) [v],
        GlCall.compileShader (ctx.create_shader_id gl.VERTEX_SHADER),
        GlCall.getShaderIv (ctx.create_shader_id gl.VERTEX_SHADER) gl.COMPILE_STATUS
          (ctx.shader_compile_status (ctx.create_shader_id gl.VERTEX_SHADER)),
        GlCall.createShader gl.FRAGMENT_SHADER (ctx.create_shader_id gl.FRAGMENT_SHADER),
        GlCall.shaderSource (ctx.create_shader_id gl.FRAGMENT_SHADER) [f],
        GlCall.compileShader (ctx.create_shader_id gl.FRAGMENT_SHADER),
        GlCall.getShaderIv (ctx.create_shader_id gl.FRAGMENT_SHADER) gl.COMPILE_STATUS
          (ctx.shader_compile_status (ctx.create_shader_id gl.FRAGMENT_SHADER)),
        GlCall.getShaderInfoLog (ctx.create_shader_id gl.FRAGMENT_SHADER)
          (ctx.shader_info_log (ctx.create_shader_id gl.FRAGMENT_SHADER)),
        GlCall.deleteShader (ctx.create_shader_id gl.VERTEX_SHADER),
        GlCall.deleteShader (ctx.create_shader_id gl.FRAGMENT_SHADER)]) := by
  simp [GlShader.new, get_gl_shader_error, hv, hf]

/-- Debug build, both compiles pass and the link check trips: error
return after deleting both shader objects and the program. -/
theorem glShader_new_debug_link_fail_eq (ctx : Gl) (v f : String)
    (hv : ctx.shader_compile_status (ctx.create_shader_id gl.VERTEX_SHADER) = 0)
    (hf : ctx.shader_compile_status (ctx.create_shader_id gl.FRAGMENT_SHADER) = 0)
    (hp : ctx.program_link_status ctx.create_program_id ≠ 0) :
    GlShader.new true ctx v f =
      (Except.error (GlShaderCreateError.Link
         { error_id := ctx.program_link_status ctx.create_program_id,
           info_log := ctx.program_info_log ctx.create_program_id }),
       [GlCall.createShader gl.VERTEX_SHADER (ctx.create_shader_id gl.VERTEX_SHADER),
        GlCall.shaderSource (ctx.create_shader_id gl.VERTEX_SHADER) [v],
        GlCall.compileShader (ctx.create_shader_id gl.VERTEX_SHADER),
        GlCall.getShaderIv (ctx.create_shader_id gl.VERTEX_SHADER) gl.COMPILE_STATUS
          (ctx.shader_compile_status (ctx.create_shader_id gl.VERTEX_SHADER)),
        GlCall.createShader gl.FRAGMENT_SHADER (ctx.create_shader_id gl.FRAGMENT_SHADER),
        GlCall.shaderSource (ctx.create_shader_id gl.FRAGMENT_SHADER) [f],
        GlCall.compileShader (ctx.create_shader_id gl.FRAGMENT_SHADER),
        GlCall.getShaderIv (ctx.create_shader_id gl.FRAGMENT_SHADER) gl.COMPILE_STATUS
          (ctx.shader_compile_status (ctx.create_shader_id gl.FRAGMENT_SHADER)),
        GlCall.createProgram ctx.create_program_id,
        GlCall.attachShader ctx.create_program_id (ctx.create_shader_id gl.VERTEX_SHADER),
        GlCall.attachShader ctx.create_program_id (ctx.create_shader_id gl.FRAGMENT_SHADER),
        GlCall.linkProgram ctx.create_program_id,
        GlCall.getProgramIv ctx.create_program_id gl.LINK_STATUS
          (ctx.program_link_status ctx.create_program_id),
        GlCall.getProgramInfoLog ctx.create_program_id
          (ctx.program_info_log ctx.create_program_id),
        GlCall.deleteShader (ctx.create_shader_id gl.VERTEX_SHADER),
        GlCall.deleteShader (ctx.create_shader_id gl.FRAGMENT_SHADER),
        GlCall.deleteProgram ctx.create_program_id]) := by
  simp [GlShader.new, get_gl_shader_error, get_gl_program_error, hv, hf, hp]

/-- Debug build, all three checks pass: success value, both shader
objects deleted, the program kept. -/
theorem glShader_new_debug_ok_eq (ctx : Gl) (v f : String)
    (hv : ctx.shader_compile_status (ctx.create_shader_id gl.VERTEX_SHADER) = 0)
    (hf : ctx.shader_compile_status (ctx.create_shader_id gl.FRAGMENT_SHADER) = 0)
    (hp : ctx.program_link_status ctx.create_program_id = 0) :
    GlShader.new true ctx v f =
      (Except.ok { shader_program := ctx.create_program_id, gl_context := ctx },
       [GlCall.createShader gl.VERTEX_SHADER (ctx.create_shader_id gl.VERTEX_SHADER),
        GlCall.shaderSource (ctx.create_shader_id gl.VERTEX_SHADER) [v],
        GlCall.compileShader (ctx.create_shader_id gl.VERTEX_SHADER),
        GlCall.getShaderIv (ctx.create_shader_id gl.VERTEX_SHADER) gl.COMPILE_STATUS
          (ctx.shader_compile_status (ctx.create_shader_id gl.VERTEX_SHADER)),
        GlCall.createShader gl.FRAGMENT_SHADER (ctx.create_shader_id gl.FRAGMENT_SHADER),
        GlCall.shaderSource (ctx.create_shader_id gl.FRAGMENT_SHADER) [f],
        GlCall.compileShader (ctx.create_shader_id gl.FRAGMENT_SHADER),
        GlCall.getShaderIv (ctx.create_shader_id gl.FRAGMENT_SHADER) gl.COMPILE_STATUS
          (ctx.shader_compile_status (ctx.create_shader_id gl.FRAGMENT_SHADER)),
        GlCall.createProgram ctx.create_program_id,
        GlCall.attachShader ctx.create_program_id (ctx.create_shader_id gl.VERTEX_SHADER),
        GlCall.attachShader ctx.create_program_id (ctx.create_shader_id gl.FRAGMENT_SHADER),
        GlCall.linkProgram ctx.create_program_id,
        GlCall.getProgramIv ctx.create_program_id gl.LINK_STATUS
          (ctx.program_link_status ctx.create_program_id),
        GlCall.deleteShader (ctx.create_shader_id gl.VERTEX_SHADER),
        GlCall.deleteShader (ctx.create_shader_id gl.FRAGMENT_SHADER)]) := by
  simp [GlShader.new, get_gl_shader_error, get_gl_program_error, hv, hf, hp]

/- Claim theorems. -/

/-- C1, counterexample. The claim states that the status helpers report
failure (a some result) exactly when the queried status code is ZERO.
At the concrete driver glAllOne, whose compile and link status queries
both answer 1, get_gl_shader_error and get_gl_program_error report
failure even though the code is nonzero, so the stated equivalence is
false. (The code treats a ZERO status as success and any NONZERO status
as the error.) -/
theorem get_gl_error_zero_means_failure_counterexample :
    ¬ (((get_gl_shader_error glAllOne 3).1.isSome = true ↔
          glAllOne.shader_compile_status 3 = 0)
     ∧ ((get_gl_program_error glAllOne 3).1.isSome = true ↔
          glAllOne.program_link_status 3 = 0)) := by
  decide

/-- C1, amended. The helpers report failure (a some result) exactly when
the queried single-element status code is NONZERO; when the code is
nonzero that code is the value the helper returns, and GlShader.new
stores it as the error_id of the returned error record. -/
theorem get_gl_error_failure_iff_nonzero (ctx : Gl) (so po : Nat) :
    ((get_gl_shader_error ctx so).1 = none ↔ ctx.shader_compile_status so = 0)
  ∧ (ctx.shader_compile_status so ≠ 0 →
      (get_gl_shader_error ctx so).1 = some (ctx.shader_compile_status so))
  ∧ ((get_gl_program_error ctx po).1 = none ↔ ctx.program_link_status po = 0)
  ∧ (ctx.program_link_status po ≠ 0 →
      (get_gl_program_error ctx po).1 = some (ctx.program_link_status po))
  ∧ (∀ v f : String,
      ctx.shader_compile_status (ctx.create_shader_id gl.VERTEX_SHADER) ≠ 0 →
      (GlShader.new true ctx v f).1 =
        Except.error (GlShaderCreateError.Compile (GlShaderCompileError.Vertex
          { error_id := ctx.shader_compile_status (ctx.create_shader_id gl.VERTEX_SHADER),
            info_log := ctx.shader_info_log (ctx.create_shader_id gl.VERTEX_SHADER) }))) := by
  refine ⟨?_, ?_, ?_, ?_, ?_⟩
  · by_cases h : ctx.shader_compile_status so = 0 <;> simp [get_gl_shader_error, h]
  · intro h; simp [get_gl_shader_error, h]
  · by_cases h : ctx.program_link_status po = 0 <;> simp [get_gl_program_error, h]
  · intro h; simp [get_gl_program_error, h]
  · intro v f hv
    rw [glShader_new_debug_vertex_fail_eq ctx v f hv]

/-- C1, witness: the amended theorem applied at the concrete driver
glAllOne, whose status queries answer 1: the shader-status helper
returns some 1 and GlShader.new stores 1 as error_id. -/
theorem get_gl_error_failure_iff_nonzero_witness :
    (get_gl_shader_error glAllOne 3).1 = some 1
  ∧ (GlShader.new true glAllOne "v" "f").1 =
      Except.error (GlShaderCreateError.Compile (GlShaderCompileError.Vertex
        { error_id := 1, info_log := "shader log" })) :=
  ⟨(get_gl_error_failure_iff_nonzero glAllOne 3 3).2.1 (by decide),
   (get_gl_error_failure_iff_nonzero glAllOne 3 3).2.2.2.2 "v" "f" (by decide)⟩

/-- C2: on every exit path of GlShader.new (debug or release build, any
status answers), the multiset of delete_shader ids equals the multiset
of create_shader ids (in fact the very lists agree), and the
create_program calls are matched by delete_program calls exactly on the
failure paths (on success the one created program is kept). -/
theorem glShader_new_no_leaked_intermediate_objects (dbg : Bool) (ctx : Gl) (v f : String) :
    shaderDeletes (GlShader.new dbg ctx v f).2 = shaderCreates (GlShader.new dbg ctx v f).2
  ∧ programDeletes (GlShader.new dbg ctx v f).2 =
      (if exceptIsOk (GlShader.new dbg ctx v f).1 then []
       else programCreates (GlShader.new dbg ctx v f).2) := by
  cases dbg
  · rw [glShader_new_release_eq ctx v f]; exact ⟨rfl, rfl⟩
  · by_cases hv : ctx.shader_compile_status (ctx.create_shader_id gl.VERTEX_SHADER) = 0
    · by_cases hf : ctx.shader_compile_status (ctx.create_shader_id gl.FRAGMENT_SHADER) = 0
      · by_cases hp : ctx.program_link_status ctx.create_program_id = 0
        · rw [glShader_new_debug_ok_eq ctx v f hv hf hp]; exact ⟨rfl, rfl⟩
        · rw [glShader_new_debug_link_fail_eq ctx v f hv hf hp]; exact ⟨rfl, rfl⟩
      · rw [glShader_new_debug_fragment_fail_eq ctx v f hv hf]; exact ⟨rfl, rfl⟩
    · rw [glShader_new_debug_vertex_fail_eq ctx v f hv]; exact ⟨rfl, rfl⟩

/-- C3: in a debug build GlShader.new returns the error variant of the
first failing stage, carrying that stage's status code and log: a
tripping vertex check yields Compile (Vertex ...) with no fragment
shader object and no program ever created; a tripping fragment check
(vertex passing) yields Compile (Fragment ...) after deleting both
shader objects; a tripping link check (both compiles passing) yields
Link ... . -/
theorem glShader_new_first_failing_stage (ctx : Gl) (v f : String) :
    (ctx.shader_compile_status (ctx.create_shader_id gl.VERTEX_SHADER) ≠ 0 →
        (GlShader.new true ctx v f).1 =
          Except.error (GlShaderCreateError.Compile (GlShaderCompileError.Vertex
            { error_id := ctx.shader_compile_status (ctx.create_shader_id gl.VERTEX_SHADER),
              info_log := ctx.shader_info_log (ctx.create_shader_id gl.VERTEX_SHADER) }))
      ∧ shaderCreatesOfKind (GlShader.new true ctx v f).2 gl.FRAGMENT_SHADER = []
      ∧ programCreates (GlShader.new true ctx v f).2 = [])
  ∧ (ctx.shader_compile_status (ctx.create_shader_id gl.VERTEX_SHADER) = 0 →
     ctx.shader_compile_status (ctx.create_shader_id gl.FRAGMENT_SHADER) ≠ 0 →
        (GlShader.new true ctx v f).1 =
          Except.error (GlShaderCreateError.Compile (GlShaderCompileError.Fragment
            { error_id := ctx.shader_compile_status (ctx.create_shader_id gl.FRAGMENT_SHADER),
              info_log := ctx.shader_info_log (ctx.create_shader_id gl.FRAGMENT_SHADER) }))
      ∧ shaderDeletes (GlShader.new true ctx v f).2 =
          [ctx.create_shader_id gl.VERTEX_SHADER, ctx.create_shader_id gl.FRAGMENT_SHADER])
  ∧ (ctx.shader_compile_status (ctx.create_shader_id gl.VERTEX_SHADER) = 0 →
     ctx.shader_compile_status (ctx.create_shader_id gl.FRAGMENT_SHADER) = 0 →
     ctx.program_link_status ctx.create_program_id ≠ 0 →
        (GlShader.new true ctx v f).1 =
          Except.error (GlShaderCreateError.Link
            { error_id := ctx.program_link_status ctx.create_program_id,
              info_log := ctx.program_info_log ctx.create_program_id })) := by
  refine ⟨fun hv => ?_, fun hv hf => ?_, fun hv hf hp => ?_⟩
  · rw [glShader_new_debug_vertex_fail_eq ctx v f hv]; exact ⟨rfl, rfl, rfl⟩
  · rw [glShader_new_debug_fragment_fail_eq ctx v f hv hf]; exact ⟨rfl, rfl⟩
  · rw [glShader_new_debug_link_fail_eq ctx v f hv hf hp]

/-- C3, witness: at the driver glAllOne every status query answers 1, so
the vertex stage is the first to fail: the result is the Vertex compile
error with code 1 and log "shader log", and no fragment shader object or
program is ever created. -/
theorem glShader_new_first_failing_stage_witness :
    (GlShader.new true glAllOne "v" "f").1 =
      Except.error (GlShaderCreateError.Compile (GlShaderCompileError.Vertex
        { error_id := 1, info_log := "shader log" }))
  ∧ shaderCreatesOfKind (GlShader.new true glAllOne "v" "f").2 gl.FRAGMENT_SHADER = []
  ∧ programCreates (GlShader.new true glAllOne "v" "f").2 = [] :=
  (glShader_new_first_failing_stage glAllOne "v" "f").1 (by decide)

/-- C4 (intent model, evaluated at the failing input): at the driver
glSuccess every status query answers 0, so in a debug build GlShader.new
reaches its success return. The intended result is the ok constructor of
the declared result type wrapping shader_program = create_program handle
7, with exactly one program created and both intermediate shader objects
4 and 5 created and deleted. The source itself writes Some at this
return, the Option constructor, which does not fit the declared Result
return type of the function. -/
theorem glShader_new_success_at_failing_input :
    (GlShader.new true glSuccess "v" "f").1 =
      Except.ok { shader_program := glSuccess.create_program_id, gl_context := glSuccess }
  ∧ programCreates (GlShader.new true glSuccess "v" "f").2 = [7]
  ∧ programDeletes (GlShader.new true glSuccess "v" "f").2 = []
  ∧ shaderCreates (GlShader.new true glSuccess "v" "f").2 = [4, 5]
  ∧ shaderDeletes (GlShader.new true glSuccess "v" "f").2 = [4, 5] :=
  ⟨rfl, rfl, rfl, rfl, rfl⟩

/-- C5 (intent model): Texture equality holds exactly when the handles
are equal, whatever the width, height and context fields are, and equal
textures hash alike under every hasher, because only the handle is fed
to the hasher. -/
theorem texture_eq_iff_handle_eq (t1 t2 : Texture) (hasher : Nat → Nat) :
    (Texture.eq t1 t2 = true ↔ t1.texture_id = t2.texture_id)
  ∧ (Texture.eq t1 t2 = true →
      Texture.hashWith hasher t1 = Texture.hashWith hasher t2) := by
  constructor
  · simp [Texture.eq]
  · intro h
    simp [Texture.eq] at h
    simp [Texture.hashWith, h]

/-- C5, witness: two textures with the same handle 5 but different
width, height and context compare equal and hash alike. -/
theorem texture_eq_iff_handle_eq_witness :
    Texture.eq ⟨5, 1, 2, glCtxA⟩ ⟨5, 8, 9, glCtxB⟩ = true
  ∧ Texture.hashWith (fun n => n + 100) ⟨5, 1, 2, glCtxA⟩ =
      Texture.hashWith (fun n => n + 100) ⟨5, 8, 9, glCtxB⟩ :=
  ⟨(texture_eq_iff_handle_eq ⟨5, 1, 2, glCtxA⟩ ⟨5, 8, 9, glCtxB⟩ id).1.mpr rfl,
   (texture_eq_iff_handle_eq ⟨5, 1, 2, glCtxA⟩ ⟨5, 8, 9, glCtxB⟩ (fun n => n + 100)).2 (by decide)⟩

/-- C6 (intent model): Texture.new generates exactly one texture object,
binds it, allocates RGBA / UNSIGNED_BYTE storage of size width times
height with no initial data, sets exactly the four fixed sampling
parameters, and returns a Texture whose width and height fields are the
given arguments and whose texture_id is the generated handle. The
source itself initializes a nonexistent field dimensions instead of the
declared width and height fields. -/
theorem texture_new_fields_and_calls (ctx : Gl) (w h : Nat) :
    (Texture.new ctx w h).1.width = w
  ∧ (Texture.new ctx w h).1.height = h
  ∧ (Texture.new ctx w h).1.texture_id = ctx.gen_texture_id
  ∧ (Texture.new ctx w h).2 =
      [GlCall.genTextures 1 [ctx.gen_texture_id],
       GlCall.bindTexture gl.TEXTURE_2D ctx.gen_texture_id,
       GlCall.texImage2d gl.TEXTURE_2D 0 (gl.RGBA : Nat) w h 0 gl.RGBA gl.UNSIGNED_BYTE none,
       GlCall.texParameterI gl.TEXTURE_2D gl.TEXTURE_MAG_FILTER (gl.NEAREST : Nat),
       GlCall.texParameterI gl.TEXTURE_2D gl.TEXTURE_MIN_FILTER (gl.NEAREST : Nat),
       GlCall.texParameterI gl.TEXTURE_2D gl.TEXTURE_WRAP_S (gl.CLAMP_TO_EDGE : Nat),
       GlCall.texParameterI gl.TEXTURE_2D gl.TEXTURE_WRAP_T (gl.CLAMP_TO_EDGE : Nat)] :=
  ⟨rfl, rfl, rfl, rfl⟩

/-- C7 (intent model): FrameBuffer.bind issues exactly the three calls
the claim lists: bind the owning texture as TEXTURE_2D, bind the
framebuffer's own handle as FRAMEBUFFER, and set the viewport to
(0, 0, texture.width, texture.height). The source itself binds the
out-of-scope name framebuffers[0] instead of self.id. -/
theorem framebuffer_bind_calls (fb : FrameBuffer) :
    FrameBuffer.bind fb =
      [GlCall.bindTexture gl.TEXTURE_2D fb.texture.texture_id,
       GlCall.bindFramebuffer gl.FRAMEBUFFER fb.id,
       GlCall.viewport 0 0 fb.texture.width fb.texture.height] := rfl

/-- C8: dropping a FrameBuffer issues exactly one call, the delete of
its own framebuffer handle; in particular no call of the trace touches
texture state (the referenced Texture value is untouched by the pure
drop). -/
theorem framebuffer_drop_deletes_only_own_handle (fb : FrameBuffer) :
    FrameBuffer.drop fb = [GlCall.deleteFramebuffers [fb.id]]
  ∧ (FrameBuffer.drop fb).all (fun c => !(affectsTexture c)) = true :=
  ⟨rfl, rfl⟩

/-- C9: in a release build (no debug assertions) GlShader.new returns
the success value for every context and every pair of source strings,
and its trace contains no compile- or link-status query at all: the
error branches are compiled out. -/
theorem glShader_new_release_always_ok (ctx : Gl) (v f : String) :
    (GlShader.new false ctx v f).1 =
      Except.ok { shader_program := ctx.create_program_id, gl_context := ctx }
  ∧ statusQueries (GlShader.new false ctx v f).2 = [] :=
  ⟨rfl, rfl⟩

/-- C10: Texture.get_framebuffer never issues a bind_framebuffer call:
FrameBuffer.new only generates the framebuffer handle, and the
color-attachment and draw-buffers calls follow with no bind in between
or after, so they apply to whatever framebuffer the context currently
has bound, not necessarily the returned one. -/
theorem get_framebuffer_never_binds (dbg : Bool) (t : Texture) :
    ((Texture.get_framebuffer dbg t).2).all (fun c => !(isBindFramebuffer c)) = true
  ∧ (FrameBuffer.new t).2 = [GlCall.genFramebuffers 1 [t.gl_context.gen_framebuffer_id]]
  ∧ (Texture.get_framebuffer dbg t).2 =
      [GlCall.genFramebuffers 1 [t.gl_context.gen_framebuffer_id],
       GlCall.framebufferTexture2d gl.FRAMEBUFFER gl.COLOR_ATTACHMENT0 gl.TEXTURE_2D t.texture_id 0,
       GlCall.drawBuffers [gl.COLOR_ATTACHMENT0]] ++
      (if dbg then
        [GlCall.checkFrameBufferStatus gl.FRAMEBUFFER t.gl_context.framebuffer_status]
       else []) := by
  cases dbg <;> exact ⟨rfl, rfl, rfl⟩

end Azul
